import Mathlib

/-!
Verification of the execution engine of the web-based code editor
(src/utils/code_executor.py) against its specification.

The embedding models the CodeExecutor class.  The operating-system side of a
run (what the spawned child process does, which exception a library call
raises) is represented by an explicit outcome value passed into each
operation; the Python control flow around that outcome is translated
line by line.  Resource accounting (process spawn attempts, temporary
artifact creation and removal) is threaded through an explicit trace state,
mirroring the side effects the Python code performs.
-/

/-- One run result dictionary, as built by CodeExecutor.execute and
CodeExecutor.run_code.  The output key is always present; the error key
holds None on success and a message string otherwise; the return_code key is
present only on the branches that put it into the dictionary. -/
structure RunResult where
  output : String
  error : Option String
  return_code : Option Int
deriving DecidableEq

/-- Result dictionary of CodeExecutor.validate_code.  The line and offset
keys are present only on the SyntaxError branch. -/
structure ValidationResult where
  valid : Bool
  error : Option String
  line : Option Int
  offset : Option Int
deriving DecidableEq

/-- Side-effect trace of one engine call: how many child-process spawn
attempts were made (each call of subprocess.run), how many temporary
source artifacts were created (tempfile.NamedTemporaryFile with
delete=False), how many os.unlink calls were attempted, and how many
artifacts were actually removed (an unlink attempt that raises OSError
removes nothing). -/
structure ExecTrace where
  spawnAttempts : Nat
  tempCreated : Nat
  unlinkAttempts : Nat
  tempRemoved : Nat
deriving DecidableEq

/-- Outcome of the subprocess.run call inside CodeExecutor.run_code, as
decided by the operating system:
either the child terminated (its stdout text, stderr text and return code),
or subprocess.TimeoutExpired was raised (carrying whatever partial output
the library had captured before the kill), or a subprocess.SubprocessError
was raised, or some other exception (for example FileNotFoundError for a
missing interpreter) was raised.  These constructors cover exactly the
except clauses of the Python code. -/
inductive ProcOutcome where
  | completed (pstdout pstderr : String) (returncode : Int)
  | timeoutExpired (pstdout pstderr : String)
  | subprocessError (msg : String)
  | exceptionRaised (msg : String)
deriving DecidableEq

/-- The CodeExecutor object: the two fields set in CodeExecutor.__init__,
self.timeout = 10 seconds and self.max_output_size = 10000 characters. -/
structure CodeExecutor where
  timeout : Nat
  max_output_size : Nat
deriving DecidableEq

/-- The executor as constructed by CodeExecutor.__init__. -/
def CodeExecutor.init : CodeExecutor := { timeout := 10, max_output_size := 10000 }

/-- The fixed marker appended to truncated stdout text. -/
def outputTruncMarker : String := "\n... (output truncated)"

/-- The fixed marker appended to truncated stderr text. -/
def errorTruncMarker : String := "\n... (error truncated)"

/-- The truncation step of CodeExecutor.run_code: if len(s) exceeds the
cap, keep the prefix s[:cap] of cap characters and append the marker,
otherwise leave s unchanged.  Python slicing counts characters, modelled by
taking a prefix of the character list. -/
def pyTruncate (s : String) (cap : Nat) (marker : String) : String :=
  if cap < s.length then String.mk (s.data.take cap) ++ marker else s

/-- The Python expression s or fallback for strings: the fallback is used
exactly when s is empty (falsy). -/
def pyOr (s fallback : String) : String :=
  if s = "" then fallback else s

/-- Whitespace as recognised by the Python str.strip and str.isspace
methods: ASCII whitespace, the separator control characters, and the
Unicode space code points. -/
def pyIsSpace (c : Char) : Bool :=
  (0x9 ≤ c.toNat && c.toNat ≤ 0xd) || c.toNat = 0x20 ||
  (0x1c ≤ c.toNat && c.toNat ≤ 0x1f) || c.toNat = 0x85 || c.toNat = 0xa0 ||
  c.toNat = 0x1680 || (0x2000 ≤ c.toNat && c.toNat ≤ 0x200a) ||
  c.toNat = 0x2028 || c.toNat = 0x2029 || c.toNat = 0x202f ||
  c.toNat = 0x205f || c.toNat = 0x3000

/-- The guard not code.strip() of CodeExecutor.execute: stripping leading
and trailing whitespace yields the empty (falsy) string exactly when every
character of the string is whitespace. -/
def pyStripIsEmpty (code : String) : Bool :=
  code.data.all pyIsSpace

/-- Creation of the temporary source artifact:
tempfile.NamedTemporaryFile(mode=w, suffix=.py, delete=False). -/
def mkTempArtifact (t : ExecTrace) : ExecTrace :=
  { t with tempCreated := t.tempCreated + 1 }

/-- The cleanup step in the finally block of CodeExecutor.execute:
try: os.unlink(temp_file_path) except OSError: pass.  The unlink call is
always attempted; whether it succeeds is decided by the operating system
(the ok flag).  On success the artifact is removed; on an OSError the
exception is swallowed and the artifact is left behind. -/
def unlinkTempArtifact (ok : Bool) (t : ExecTrace) : ExecTrace :=
  if ok then
    { t with unlinkAttempts := t.unlinkAttempts + 1, tempRemoved := t.tempRemoved + 1 }
  else
    { t with unlinkAttempts := t.unlinkAttempts + 1 }

/-- CodeExecutor.run_code, the private method named with a single leading
underscore in the source.  It makes exactly one subprocess.run spawn
attempt and then assembles the result dictionary from the outcome.  The
StringIO buffers installed by contextlib.redirect_stdout and
redirect_stderr capture nothing (no parent-side print happens inside the
with block), so getvalue() returns the empty string and the combined
output is the empty buffer text concatenated with the child process
streams.  Every exception class raised by subprocess.run is caught by one
of the three except clauses, so the method always returns a dictionary. -/
def CodeExecutor.run_code (cfg : CodeExecutor) (outcome : ProcOutcome)
    (t : ExecTrace) : RunResult × ExecTrace :=
  (match outcome with
   | .completed pstdout pstderr returncode =>
      if returncode ≠ 0 then
        { output := pyTruncate ("" ++ pstdout) cfg.max_output_size outputTruncMarker,
          error := some (pyOr (pyTruncate ("" ++ pstderr) cfg.max_output_size errorTruncMarker)
            "Code execution failed"),
          return_code := some returncode }
      else
        { output := pyTruncate ("" ++ pstdout) cfg.max_output_size outputTruncMarker,
          error := none,
          return_code := some returncode }
   | .timeoutExpired _ _ =>
      { output := "",
        error := some ("Code execution timed out after " ++ toString cfg.timeout ++ " seconds"),
        return_code := none }
   | .subprocessError msg =>
      { output := "",
        error := some ("Subprocess error: " ++ msg),
        return_code := none }
   | .exceptionRaised msg =>
      { output := "",
        error := some ("Execution error: " ++ msg),
        return_code := none },
   { t with spawnAttempts := t.spawnAttempts + 1 })

/-- CodeExecutor.execute: reject blank source before any file or process
side effect, otherwise materialize the source into a temporary artifact,
delegate to run_code inside a try block, and attempt to unlink the
artifact in the finally block, which runs on every exit path because
run_code catches every exception of the run itself.  The unlinkOk input
is the operating-system verdict on that os.unlink call; an OSError from
it is swallowed by the except clause around the unlink. -/
def CodeExecutor.execute (cfg : CodeExecutor) (code : String)
    (outcome : ProcOutcome) (unlinkOk : Bool) (t : ExecTrace) : RunResult × ExecTrace :=
  if pyStripIsEmpty code then
    ({ output := "", error := some "No code provided", return_code := none }, t)
  else
    match cfg.run_code outcome (mkTempArtifact t) with
    | (r, t2) => (r, unlinkTempArtifact unlinkOk t2)

/-- Outcome of the process.communicate phase of
CodeExecutor.execute_interactive, had the process object been constructed:
the child finished, or communicate raised subprocess.TimeoutExpired, or
some other exception was raised. -/
inductive CommOutcome where
  | finished (pstdout pstderr : String) (returncode : Int)
  | timeoutExpired
  | exceptionRaised (msg : String)
deriving DecidableEq

/-- The subprocess.Popen call of CodeExecutor.execute_interactive, which
passes timeout=self.timeout as a keyword argument.  The Popen constructor
of the Python standard library accepts no timeout parameter, so this call
raises TypeError before any child process exists; the model therefore
always returns the raised exception, and the started branch is
unreachable. -/
def popenWithTimeoutKw (code : String) : Except String CommOutcome :=
  .error "Popen.__init__() got an unexpected keyword argument timeout"

/-- CodeExecutor.execute_interactive, translated in full: the Popen
construction step, then communicate and the return-code analysis, with the
TimeoutExpired and generic except clauses.  The TypeError raised by the
construction step is caught by the generic except Exception clause. -/
def CodeExecutor.execute_interactive (cfg : CodeExecutor) (code : String) : RunResult :=
  match popenWithTimeoutKw code with
  | .error msg =>
      { output := "",
        error := some ("Interactive execution error: " ++ msg),
        return_code := none }
  | .ok comm =>
      match comm with
      | .finished pstdout pstderr returncode =>
          if returncode ≠ 0 then
            { output := pstdout,
              error := some (pyOr pstderr "Interactive execution failed"),
              return_code := some returncode }
          else
            { output := pstdout, error := none, return_code := some returncode }
      | .timeoutExpired =>
          { output := "",
            error := some ("Interactive execution timed out after " ++
              toString cfg.timeout ++ " seconds"),
            return_code := none }
      | .exceptionRaised msg =>
          { output := "",
            error := some ("Interactive execution error: " ++ msg),
            return_code := none }

/-- Outcome of the compile(code, string-tag, exec) builtin call inside
CodeExecutor.validate_code, as decided by the target-language parser
(external to this repository): either the source parses, or the parser
raises a single SyntaxError carrying the message, line and offset of the
first syntax error it met, or some other exception is raised. -/
inductive ParseOutcome where
  | ok
  | syntaxError (msg : String) (lineno offset : Int)
  | otherError (msg : String)
deriving DecidableEq

/-- Modelled from the spec: the outcome of the target-language parser on
the example source of the specification, the text def f(: followed by an
indented pass line.  The parser is not part of this repository; per its
documented behaviour it reports the first syntax error of that source at
line 1. -/
def parseOutcomeExample : ParseOutcome := .syntaxError "invalid syntax" 1 7

/-- CodeExecutor.validate_code: a pure syntax check built on the compile
builtin.  It performs no file or process side effect, so the trace is
returned unchanged on every branch. -/
def CodeExecutor.validate_code (po : ParseOutcome) (t : ExecTrace) :
    ValidationResult × ExecTrace :=
  (match po with
   | .ok => { valid := true, error := none, line := none, offset := none }
   | .syntaxError msg lineno offset =>
      { valid := false,
        error := some ("Syntax error: " ++ msg ++ " at line " ++ toString lineno),
        line := some lineno,
        offset := some offset }
   | .otherError msg =>
      { valid := false,
        error := some ("Validation error: " ++ msg),
        line := none,
        offset := none },
   t)

/-- A string of 10001 characters, one more than the default output cap. -/
def bigText : String := String.mk (List.replicate 10001 'a')

-- Helper lemmas shared by the claim theorems.

theorem string_append_ne_empty_left (s t : String) (h : s ≠ "") : s ++ t ≠ "" := by
  intro hc
  apply h
  have hlen := congrArg String.length hc
  rw [String.length_append, String.length_empty] at hlen
  have hs : s.length = 0 := by omega
  cases s with
  | mk data =>
    rw [String.length_mk, List.length_eq_zero] at hs
    simp [hs]

theorem pyTruncate_of_le (s : String) (cap : Nat) (m : String)
    (h : s.length ≤ cap) : pyTruncate s cap m = s := by
  unfold pyTruncate
  rw [if_neg]
  omega

theorem pyTruncate_of_gt (s : String) (cap : Nat) (m : String)
    (h : cap < s.length) : pyTruncate s cap m = String.mk (s.data.take cap) ++ m := by
  unfold pyTruncate
  rw [if_pos h]

theorem pyTruncate_length_of_gt (s : String) (cap : Nat) (m : String)
    (h : cap < s.length) : (pyTruncate s cap m).length = cap + m.length := by
  rw [pyTruncate_of_gt s cap m h, String.length_append, String.length_mk,
    List.length_take]
  have hd : s.data.length = s.length := by
    cases s with
    | mk data => rw [String.length_mk]
  omega

theorem pyOr_ne_empty (s fallback : String) (h : fallback ≠ "") :
    pyOr s fallback ≠ "" := by
  unfold pyOr
  split
  · exact h
  · assumption

theorem empty_append_str (s : String) : "" ++ s = s := by
  cases s with
  | mk data => rfl

theorem bigText_length : bigText.length = 10001 := by
  rw [bigText, String.length_mk, List.length_replicate]

-- Claim theorems.

/-- Claim C1: for every non-empty source string, execute never raises an
uncaught exception to its caller (the embedded function is total and every
branch of the run outcome is handled by an except clause) and always
returns a well-formed result dictionary in which exactly one error kind
applies: the error field is None for success, or it is a single non-empty
error string. -/
theorem execute_wellformed_result (cfg : CodeExecutor) (code : String)
    (outcome : ProcOutcome) (unlinkOk : Bool) (t : ExecTrace)
    (h : pyStripIsEmpty code = false) :
    (cfg.execute code outcome unlinkOk t).1.error = none ∨
    ∃ s, (cfg.execute code outcome unlinkOk t).1.error = some s ∧ s ≠ "" := by
  unfold CodeExecutor.execute
  rw [h]
  cases outcome with
  | completed pout perr rc =>
    by_cases hrc : rc = 0
    · left
      simp [CodeExecutor.run_code, hrc]
    · right
      refine ⟨pyOr (pyTruncate ("" ++ perr) cfg.max_output_size errorTruncMarker)
        "Code execution failed", ?_, ?_⟩
      · simp [CodeExecutor.run_code, hrc]
      · exact pyOr_ne_empty _ _ (by decide)
  | timeoutExpired pout perr =>
    right
    refine ⟨"Code execution timed out after " ++ toString cfg.timeout ++ " seconds", ?_, ?_⟩
    · simp [CodeExecutor.run_code]
    · exact string_append_ne_empty_left _ _
        (string_append_ne_empty_left _ _ (by decide))
  | subprocessError msg =>
    right
    exact ⟨"Subprocess error: " ++ msg, by simp [CodeExecutor.run_code],
      string_append_ne_empty_left _ _ (by decide)⟩
  | exceptionRaised msg =>
    right
    exact ⟨"Execution error: " ++ msg, by simp [CodeExecutor.run_code],
      string_append_ne_empty_left _ _ (by decide)⟩

/-- Witness for claim C1 at a concrete successful run. -/
theorem execute_wellformed_result_witness :
    (CodeExecutor.init.execute "print(1)" (.completed "1\n" "" 0) true
      ⟨0, 0, 0, 0⟩).1.error = none ∨
    ∃ s, (CodeExecutor.init.execute "print(1)" (.completed "1\n" "" 0) true
      ⟨0, 0, 0, 0⟩).1.error = some s ∧ s ≠ "" :=
  execute_wellformed_result CodeExecutor.init "print(1)" (.completed "1\n" "" 0)
    true ⟨0, 0, 0, 0⟩ (by decide)

/-- Claim C4: for every empty or whitespace-only source string, execute
returns the EmptyInput rejection (message No code provided) with empty
output, no error beyond that message and no return_code key, and the trace
is returned unchanged: no spawn attempt is made and no temporary artifact
is created. -/
theorem execute_empty_input (cfg : CodeExecutor) (code : String)
    (outcome : ProcOutcome) (unlinkOk : Bool) (t : ExecTrace)
    (h : pyStripIsEmpty code = true) :
    cfg.execute code outcome unlinkOk t =
      ({ output := "", error := some "No code provided", return_code := none }, t) := by
  unfold CodeExecutor.execute
  rw [h]
  rfl

/-- Witness for claim C4 at a concrete whitespace-only source. -/
theorem execute_empty_input_witness :
    CodeExecutor.init.execute "  \n  " (.completed "x" "y" 0) true ⟨0, 0, 0, 0⟩ =
      ({ output := "", error := some "No code provided", return_code := none },
        ⟨0, 0, 0, 0⟩) :=
  execute_empty_input CodeExecutor.init "  \n  " (.completed "x" "y" 0)
    true ⟨0, 0, 0, 0⟩ (by decide)

/-- Claim C6: the finally block attempts the removal of the temporary
artifact on every exit path of a non-blank run, whatever the run outcome
(normal completion, non-zero exit, timeout, spawn failure, exception),
and whenever that os.unlink call itself succeeds, the number of artifacts
the call creates equals the number it removes, so no run leaks its
artifact.  An OSError raised by os.unlink is swallowed by the except
clause around it; only in that operating-system failure case does the
artifact stay behind. -/
theorem execute_temp_artifact_balanced (cfg : CodeExecutor) (code : String)
    (outcome : ProcOutcome) (unlinkOk : Bool) (t : ExecTrace)
    (hok : unlinkOk = true) :
    (pyStripIsEmpty code = false →
      (cfg.execute code outcome unlinkOk t).2.unlinkAttempts = t.unlinkAttempts + 1) ∧
    (cfg.execute code outcome unlinkOk t).2.tempCreated + t.tempRemoved =
      (cfg.execute code outcome unlinkOk t).2.tempRemoved + t.tempCreated := by
  subst hok
  constructor
  · intro hb
    unfold CodeExecutor.execute
    rw [hb]
    simp [CodeExecutor.run_code, mkTempArtifact, unlinkTempArtifact]
  · unfold CodeExecutor.execute
    split
    · exact Nat.add_comm t.tempCreated t.tempRemoved
    · simp [CodeExecutor.run_code, mkTempArtifact, unlinkTempArtifact]
      omega

/-- Witness for claim C6 at a concrete non-blank run whose unlink call
succeeds. -/
theorem execute_temp_artifact_balanced_witness :
    ((CodeExecutor.init.execute "print(1)" (.completed "1\n" "" 0) true
      ⟨0, 0, 0, 0⟩).2.unlinkAttempts = 0 + 1) ∧
    (CodeExecutor.init.execute "print(1)" (.completed "1\n" "" 0) true
      ⟨0, 0, 0, 0⟩).2.tempCreated + 0 =
      (CodeExecutor.init.execute "print(1)" (.completed "1\n" "" 0) true
        ⟨0, 0, 0, 0⟩).2.tempRemoved + 0 := by
  constructor
  · exact (execute_temp_artifact_balanced CodeExecutor.init "print(1)"
      (.completed "1\n" "" 0) true ⟨0, 0, 0, 0⟩ rfl).1 (by decide)
  · exact (execute_temp_artifact_balanced CodeExecutor.init "print(1)"
      (.completed "1\n" "" 0) true ⟨0, 0, 0, 0⟩ rfl).2

/-- Claim C9: when the child process cannot be spawned (the
subprocess.SubprocessError clause, or the generic exception clause that
catches a missing interpreter), execute's helper returns a result whose
only populated field beyond the error message is the empty output: no
return_code key and no partial stream content. -/
theorem run_code_spawn_failure (cfg : CodeExecutor) (msg : String) (t : ExecTrace) :
    (cfg.run_code (.subprocessError msg) t).1 =
      { output := "", error := some ("Subprocess error: " ++ msg), return_code := none } ∧
    (cfg.run_code (.exceptionRaised msg) t).1 =
      { output := "", error := some ("Execution error: " ++ msg), return_code := none } :=
  ⟨rfl, rfl⟩

/-- Claim C10: execute_interactive never succeeds: for every input code
string its result carries a non-None error string, because the Popen
construction passes a timeout keyword argument the constructor does not
accept, so a TypeError is raised before any code runs and is reported
through the generic exception clause. -/
theorem execute_interactive_never_succeeds (cfg : CodeExecutor) (code : String) :
    (cfg.execute_interactive code).error =
      some ("Interactive execution error: " ++
        "Popen.__init__() got an unexpected keyword argument timeout") ∧
    (cfg.execute_interactive code).error ≠ none := by
  constructor
  · rfl
  · intro hc
    simp [CodeExecutor.execute_interactive, popenWithTimeoutKw] at hc

theorem string_eq_empty_of_length_eq_zero (s : String) (h : s.length = 0) : s = "" := by
  cases s with
  | mk data =>
    rw [String.length_mk, List.length_eq_zero] at h
    simp [h]

theorem string_append_ne_empty_right (s t : String) (h : t ≠ "") : s ++ t ≠ "" := by
  intro hc
  apply h
  have hlen := congrArg String.length hc
  rw [String.length_append, String.length_empty] at hlen
  exact string_eq_empty_of_length_eq_zero t (by omega)

/-- Claim C5: on a normal child exit, the result carries the exit code; a
zero exit code gives a success result (error None), and a non-zero exit
code gives a failure result whose message is the generic one when stderr
is empty and the captured, truncated stderr otherwise. -/
theorem run_code_normal_exit (cfg : CodeExecutor) (pout perr : String)
    (rc : Int) (t : ExecTrace) :
    (cfg.run_code (.completed pout perr rc) t).1.return_code = some rc ∧
    (rc = 0 → (cfg.run_code (.completed pout perr rc) t).1.error = none) ∧
    (rc ≠ 0 → perr = "" →
      (cfg.run_code (.completed pout perr rc) t).1.error =
        some "Code execution failed") ∧
    (rc ≠ 0 → perr ≠ "" →
      (cfg.run_code (.completed pout perr rc) t).1.error =
        some (pyTruncate perr cfg.max_output_size errorTruncMarker) ∧
      pyTruncate perr cfg.max_output_size errorTruncMarker ≠ "") := by
  refine ⟨?_, ?_, ?_, ?_⟩
  · by_cases hrc : rc = 0 <;> simp [CodeExecutor.run_code, hrc]
  · intro hrc
    simp [CodeExecutor.run_code, hrc]
  · intro hrc hperr
    subst hperr
    simp [CodeExecutor.run_code, hrc]
    rw [pyTruncate_of_le _ _ _ (by rw [String.length_empty]; omega)]
    rfl
  · intro hrc hperr
    have hne : pyTruncate perr cfg.max_output_size errorTruncMarker ≠ "" := by
      unfold pyTruncate
      split
      · exact string_append_ne_empty_right _ _ (by decide)
      · exact hperr
    constructor
    · simp [CodeExecutor.run_code, hrc]
      unfold pyOr
      rw [if_neg hne]
    · exact hne

/-- Witness for claim C5 at a concrete zero-exit run. -/
theorem run_code_normal_exit_witness :
    (CodeExecutor.init.run_code (.completed "hi\n" "" 0) ⟨0, 0, 0, 0⟩).1.error = none :=
  (run_code_normal_exit CodeExecutor.init "hi\n" "" 0 ⟨0, 0, 0, 0⟩).2.1 rfl

/-- Claim C7: execute performs no syntax-validation pass before spawning.
A spawn attempt is made for every non-blank source; the run result is a
function of the process outcome alone, identical for any two non-blank
sources whatever validate_code would say about them; and a syntax error
surfaces as a process-failure result carrying the child interpreter
message and exit code rather than a pre-spawn rejection. -/
theorem execute_no_prevalidation (cfg : CodeExecutor) (c1 c2 : String)
    (outcome : ProcOutcome) (unlinkOk : Bool) (t : ExecTrace)
    (h1 : pyStripIsEmpty c1 = false) (h2 : pyStripIsEmpty c2 = false) :
    (cfg.execute c1 outcome unlinkOk t).2.spawnAttempts = t.spawnAttempts + 1 ∧
    cfg.execute c1 outcome unlinkOk t = cfg.execute c2 outcome unlinkOk t ∧
    (∀ msg rc, rc ≠ 0 → msg ≠ "" → msg.length ≤ cfg.max_output_size →
      (cfg.execute c1 (.completed "" msg rc) unlinkOk t).1.error = some msg ∧
      (cfg.execute c1 (.completed "" msg rc) unlinkOk t).1.return_code = some rc) := by
  refine ⟨?_, ?_, ?_⟩
  · unfold CodeExecutor.execute
    rw [h1]
    cases unlinkOk <;>
      simp [CodeExecutor.run_code, mkTempArtifact, unlinkTempArtifact]
  · unfold CodeExecutor.execute
    rw [h1, h2]
  · intro msg rc hrc hmsg hlen
    unfold CodeExecutor.execute
    rw [h1]
    constructor
    · simp [CodeExecutor.run_code, hrc]
      rw [pyTruncate_of_le _ _ _ hlen]
      unfold pyOr
      rw [if_neg hmsg]
    · simp [CodeExecutor.run_code, hrc]

/-- Witness for claim C7: a syntactically invalid source and a valid one,
same outcome, and the interpreter syntax-error message surfacing. -/
theorem execute_no_prevalidation_witness :
    (CodeExecutor.init.execute "def f(:\n  pass" (.completed "" "SyntaxError: invalid syntax" 1)
      true ⟨0, 0, 0, 0⟩).2.spawnAttempts = 0 + 1 ∧
    (CodeExecutor.init.execute "def f(:\n  pass" (.completed "" "SyntaxError: invalid syntax" 1)
      true ⟨0, 0, 0, 0⟩).1.error = some "SyntaxError: invalid syntax" := by
  constructor
  · exact (execute_no_prevalidation CodeExecutor.init "def f(:\n  pass" "print(1)"
      (.completed "" "SyntaxError: invalid syntax" 1) true ⟨0, 0, 0, 0⟩
      (by decide) (by decide)).1
  · exact ((execute_no_prevalidation CodeExecutor.init "def f(:\n  pass" "print(1)"
      (.completed "" "SyntaxError: invalid syntax" 1) true ⟨0, 0, 0, 0⟩
      (by decide) (by decide)).2.2
      "SyntaxError: invalid syntax" 1 (by decide) (by decide) (by decide)).1

/-- Claim C8: validate_code is pure and spawns nothing (the trace passes
through unchanged on every branch); a parse success yields valid true; a
syntax error yields valid false with the single first error message, line
and offset; and on the specification example source the reported line is
1. -/
theorem validate_code_spec (msg : String) (lineno offset : Int) (t : ExecTrace) :
    CodeExecutor.validate_code .ok t =
      ({ valid := true, error := none, line := none, offset := none }, t) ∧
    CodeExecutor.validate_code (.syntaxError msg lineno offset) t =
      ({ valid := false,
         error := some ("Syntax error: " ++ msg ++ " at line " ++ toString lineno),
         line := some lineno, offset := some offset }, t) ∧
    (∀ po, (CodeExecutor.validate_code po t).2 = t) ∧
    (CodeExecutor.validate_code parseOutcomeExample t).1.valid = false ∧
    (CodeExecutor.validate_code parseOutcomeExample t).1.line = some 1 := by
  refine ⟨rfl, rfl, ?_, rfl, rfl⟩
  intro po
  cases po <;> rfl

/-- Claim C2 counterexample: on a timeout whose child had already produced
partial stdout, the result's output is the empty string, not the retained
(truncation of the) partial output, so the partial output captured before
the kill is discarded. -/
theorem run_code_timeout_cex :
    (CodeExecutor.init.run_code (.timeoutExpired "hi" "") ⟨0, 0, 0, 0⟩).1.output = "" ∧
    (CodeExecutor.init.run_code (.timeoutExpired "hi" "") ⟨0, 0, 0, 0⟩).1.output ≠
      pyTruncate "hi" CodeExecutor.init.max_output_size outputTruncMarker := by
  constructor
  · rfl
  · rw [pyTruncate_of_le _ _ _ (by decide)]
    decide

/-- Claim C2 as amended: on a timeout, the result reports the configured
timeout limit in its error message and carries no return_code key, and its
output is empty: whatever partial output was captured before the kill is
discarded, not retained. -/
theorem run_code_timeout_result (cfg : CodeExecutor) (pout perr : String)
    (t : ExecTrace) :
    (cfg.run_code (.timeoutExpired pout perr) t).1 =
      { output := "",
        error := some ("Code execution timed out after " ++ toString cfg.timeout ++ " seconds"),
        return_code := none } :=
  rfl

/-- Claim C3 as amended: each stream is truncated independently with its
own fixed marker appended exactly once, the output marker for stdout and
the error marker for stderr; text not exceeding the cap is returned
unchanged, and truncated text is the cap-length prefix followed by that
stream's marker, so its length is the cap plus that marker's length. -/
theorem run_code_truncation (cfg : CodeExecutor) (pout perr : String)
    (rc : Int) (t : ExecTrace) :
    (pout.length ≤ cfg.max_output_size →
      (cfg.run_code (.completed pout perr rc) t).1.output = pout) ∧
    (cfg.max_output_size < pout.length →
      (cfg.run_code (.completed pout perr rc) t).1.output =
        String.mk (pout.data.take cfg.max_output_size) ++ outputTruncMarker ∧
      (cfg.run_code (.completed pout perr rc) t).1.output.length =
        cfg.max_output_size + outputTruncMarker.length) ∧
    (cfg.max_output_size < perr.length → rc ≠ 0 →
      (cfg.run_code (.completed pout perr rc) t).1.error =
        some (String.mk (perr.data.take cfg.max_output_size) ++ errorTruncMarker) ∧
      (String.mk (perr.data.take cfg.max_output_size) ++ errorTruncMarker).length =
        cfg.max_output_size + errorTruncMarker.length) := by
  refine ⟨?_, ?_, ?_⟩
  · intro hle
    by_cases hrc : rc = 0 <;>
      simp [CodeExecutor.run_code, hrc, pyTruncate_of_le _ _ _ hle]
  · intro hgt
    constructor
    · by_cases hrc : rc = 0 <;>
        simp [CodeExecutor.run_code, hrc, pyTruncate_of_gt _ _ _ hgt]
    · have hout : (cfg.run_code (.completed pout perr rc) t).1.output =
          pyTruncate pout cfg.max_output_size outputTruncMarker := by
        by_cases hrc : rc = 0 <;> simp [CodeExecutor.run_code, hrc]
      rw [hout, pyTruncate_length_of_gt _ _ _ hgt]
  · intro hgt hrc
    have hne : pyTruncate perr cfg.max_output_size errorTruncMarker ≠ "" := by
      rw [pyTruncate_of_gt _ _ _ hgt]
      exact string_append_ne_empty_right _ _ (by decide)
    constructor
    · simp [CodeExecutor.run_code, hrc]
      unfold pyOr
      rw [if_neg hne, pyTruncate_of_gt _ _ _ hgt]
    · rw [← pyTruncate_of_gt _ _ _ hgt, pyTruncate_length_of_gt _ _ _ hgt]

/-- Witness for the amended claim C3 at a small configured cap. -/
theorem run_code_truncation_witness :
    ((⟨10, 4⟩ : CodeExecutor).run_code (.completed "abcdefgh" "wxyz" 1)
      ⟨0, 0, 0, 0⟩).1.output = String.mk (("abcdefgh").data.take 4) ++ outputTruncMarker :=
  ((run_code_truncation ⟨10, 4⟩ "abcdefgh" "wxyz" 1 ⟨0, 0, 0, 0⟩).2.1 (by decide)).1

/-- Claim C3 counterexample: the two streams are not truncated with the
same fixed marker.  On a run whose stdout and stderr carry the same
over-cap text, the claim as stated forces the truncated stderr (surfaced
as the error message) to equal the truncated stdout, but the code appends
the output marker to stdout and the shorter error marker to stderr, so the
two texts differ. -/
theorem run_code_truncation_marker_cex :
    (CodeExecutor.init.run_code (.completed bigText bigText 1) ⟨0, 0, 0, 0⟩).1.error ≠
      some ((CodeExecutor.init.run_code (.completed bigText bigText 1) ⟨0, 0, 0, 0⟩).1.output) := by
  have hgt : CodeExecutor.init.max_output_size < bigText.length := by
    rw [bigText_length]
    decide
  have hne : pyTruncate bigText CodeExecutor.init.max_output_size errorTruncMarker ≠ "" := by
    rw [pyTruncate_of_gt _ _ _ hgt]
    exact string_append_ne_empty_right _ _ (by decide)
  have herr : (CodeExecutor.init.run_code (.completed bigText bigText 1) ⟨0, 0, 0, 0⟩).1.error =
      some (pyTruncate bigText CodeExecutor.init.max_output_size errorTruncMarker) := by
    simp [CodeExecutor.run_code]
    unfold pyOr
    rw [if_neg hne]
  have hout : (CodeExecutor.init.run_code (.completed bigText bigText 1) ⟨0, 0, 0, 0⟩).1.output =
      pyTruncate bigText CodeExecutor.init.max_output_size outputTruncMarker := by
    simp [CodeExecutor.run_code]
  rw [herr, hout]
  intro hc
  have heq := Option.some.inj hc
  have hlen := congrArg String.length heq
  rw [pyTruncate_length_of_gt _ _ _ hgt, pyTruncate_length_of_gt _ _ _ hgt] at hlen
  have h1 : errorTruncMarker.length = 22 := by decide
  have h2 : outputTruncMarker.length = 23 := by decide
  omega
